import Mathlib

/-!
Verification of the protocol layer of the `agda-mode` crate and its `agda-tac`
REPL front-end: the command model and its textual encoder (`src/cmd.rs`,
`src/base.rs`), the response model and its JSON decoder (`src/resp.rs`), and
the goal/reload cycle (`agda-tac/src/repl.rs`).  Rust enums become Lean
inductives, `u32` becomes `Nat` with the range enforced where the wire
requires it, `Display` impls become `String`-valued functions, and serde's
internally-tagged JSON (de)serialization is embedded over an explicit JSON
value type.
-/

namespace AgdaMode

/-- Rewrite modifier from `base.rs`: the amount of normalization requested in
the output of an interactive command. -/
inductive Rewrite
  | AsIs
  | Instantiated
  | HeadNormal
  | Simplified
  | Normalised
  deriving DecidableEq, Repr

/-- Modelled from the spec: `cmd.rs` calls `Default::default()` for `Rewrite`
but the `impl Default for Rewrite` is not among the provided sources; the spec
says goal queries default `Rewrite` to `Instantiated`. -/
def Rewrite.default : Rewrite := .Instantiated

/-- ComputeMode modifier from `base.rs`. -/
inductive ComputeMode
  | DefaultCompute
  | IgnoreAbstract
  | UseShowInstance
  deriving DecidableEq, Repr

/-- UseForce modifier from `base.rs`: whether safety checks are ignored. -/
inductive UseForce
  | WithForce
  | WithoutForce
  deriving DecidableEq, Repr

/-- Remove modifier from `base.rs`. -/
inductive Remove
  | Remove
  | Keep
  deriving DecidableEq, Repr

/-- InteractionPoint from `base.rs`: `pub type InteractionPoint = u32`.
Modeled as `Nat`; the JSON decoder enforces the `u32` range explicitly. -/
abbrev InteractionPoint := Nat

/-- HighlightingLevel from `cmd.rs`. -/
inductive HighlightingLevel
  | None
  | NonInteractive
  | Interactive
  deriving DecidableEq, Repr

/-- Default for `HighlightingLevel` from `cmd.rs`: `NonInteractive`. -/
def HighlightingLevel.default : HighlightingLevel := .NonInteractive

/-- HighlightingMethod from `cmd.rs`. -/
inductive HighlightingMethod
  | Direct
  | Indirect
  deriving DecidableEq, Repr

/-- Default for `HighlightingMethod` from `cmd.rs`: `Direct`. -/
def HighlightingMethod.default : HighlightingMethod := .Direct

/-- A position in the file (`Pn` in `cmd.rs`); all fields are `u32`. -/
structure Pn where
  offset : Nat
  line : Nat
  column : Nat
  deriving DecidableEq, Repr

/-- Range from `cmd.rs`: either no range or a file with start and end `Pn`. -/
inductive Range
  | NoRange
  | Range (file : String) (start : Pn) («end» : Pn)
  deriving DecidableEq, Repr

/-- Default for `Range` from `cmd.rs`: `NoRange`. -/
def Range.default : AgdaMode.Range := .NoRange

/-- GoalInput from `cmd.rs`: text in the goal, targeted at interaction point
`id`. -/
structure GoalInput where
  id : InteractionPoint
  range : Range
  code : String
  deriving DecidableEq, Repr

/-- `GoalInput::new` from `cmd.rs`. -/
def GoalInput.new (id : InteractionPoint) (range : Range) (code : String) :
    GoalInput :=
  { id := id, range := range, code := code }

/-- `GoalInput::no_range` from `cmd.rs`: the default range (`NoRange`). -/
def GoalInput.no_range (id : InteractionPoint) (code : String) : GoalInput :=
  GoalInput.new id Range.default code

/-- `GoalInput::simple` from `cmd.rs`: no range and an empty code string. -/
def GoalInput.simple (id : InteractionPoint) : GoalInput :=
  GoalInput.no_range id ("")

/-- Cmd from `cmd.rs`: the closed union of request variants. -/
inductive Cmd
  | Load (path : String) (flags : List String)
  | Compile (backend : String) (path : String) (flags : List String)
  | Constraints
  | Metas
  | ShowModuleContentsToplevel (rewrite : Rewrite) (search : String)
  | SearchAboutToplevel (rewrite : Rewrite) (search : String)
  | SolveAll (rewrite : Rewrite)
  | SolveOne (rewrite : Rewrite) (input : GoalInput)
  | AutoOne (input : GoalInput)
  | AutoAll
  | InferToplevel (rewrite : Rewrite) (code : String)
  | ComputeToplevel (compute_mode : ComputeMode) (code : String)
  | LoadHighlightingInfo (path : String)
  | TokenHighlighting (path : String) (remove : Remove)
  | Highlight (input : GoalInput)
  | ShowImplicitArgs (show_ : Bool)
  | ToggleImplicitArgs
  | Give (force : UseForce) (input : GoalInput)
  | Refine (input : GoalInput)
  | Intro (dunno : Bool) (input : GoalInput)
  | RefineOrIntro (dunno : Bool) (input : GoalInput)
  | Context (rewrite : Rewrite) (input : GoalInput)
  | HelperFunction (rewrite : Rewrite) (input : GoalInput)
  | Infer (rewrite : Rewrite) (input : GoalInput)
  | GoalType (rewrite : Rewrite) (input : GoalInput)
  | ElaborateGive (rewrite : Rewrite) (input : GoalInput)
  | GoalTypeContext (rewrite : Rewrite) (input : GoalInput)
  | GoalTypeContextInfer (rewrite : Rewrite) (input : GoalInput)
  | GoalTypeContextCheck (rewrite : Rewrite) (input : GoalInput)
  | ShowModuleContents (rewrite : Rewrite) (input : GoalInput)
  | MakeCase (input : GoalInput)
  | Compute (compute_mode : ComputeMode) (input : GoalInput)
  | WhyInScope (input : GoalInput)
  | WhyInScopeToplevel (name : String)
  | ShowVersion
  | Abort
  deriving DecidableEq, Repr

/-- `Cmd::load_simple` from `cmd.rs`. -/
def Cmd.load_simple (path : String) : Cmd := .Load path []

/-- `Cmd::goal_type` from `cmd.rs`: a `GoalType` query with the default
rewrite. -/
def Cmd.goal_type (input : GoalInput) : Cmd := .GoalType Rewrite.default input

/-- `Cmd::infer` from `cmd.rs`: an `Infer` query with the default rewrite. -/
def Cmd.infer (input : GoalInput) : Cmd := .Infer Rewrite.default input

/-- `Cmd::give` from `cmd.rs`: a `Give` with `UseForce::WithoutForce`. -/
def Cmd.give (input : GoalInput) : Cmd := .Give UseForce.WithoutForce input

/-- Lowercase hexadecimal rendering of a natural number, as used by Rust's
`escape_unicode`. -/
def natToHexLower (n : Nat) : String := String.mk (Nat.toDigits 16 n)

/-- Rust `char` `Debug`-escaping as it applies inside a `{:?}`-formatted
string: named escapes for quote, backslash, newline, carriage return, tab and
NUL, `\u`-escapes for the remaining ASCII control characters, and everything
else (non-ASCII included) preserved verbatim. -/
def rustDebugChar (c : Char) : String :=
  if c = '"' then ("\\\"")
  else if c = '\\' then ("\\\\")
  else if c = '\n' then ("\\n")
  else if c = '\r' then ("\\r")
  else if c = '\t' then ("\\t")
  else if c = Char.ofNat 0 then ("\\0")
  else if c.toNat < 32 || c.toNat = 127 then
    "\\u\x7b" ++ natToHexLower c.toNat ++ "\x7d"
  else String.singleton c

/-- Rust `{:?}` formatting of a `String`: double-quoted, characters escaped by
`rustDebugChar`. -/
def rustDebugStr (s : String) : String :=
  "\"" ++ String.join (s.toList.map rustDebugChar) ++ "\""

/-- Rust `{:?}` formatting of a `Vec<String>`: bracketed, comma-separated,
elements `Debug`-quoted. -/
def rustDebugStrList (xs : List String) : String :=
  "[" ++ String.intercalate (", ") (xs.map rustDebugStr) ++ "]"

/-- Modelled from the spec: `HaskellBool` is imported from `base.rs` by
`cmd.rs` but missing from the provided `base.rs`; the spec says booleans
render using the external language's literal spelling `True`/`False`. -/
def showHaskellBool (b : Bool) : String := if b then ("True") else ("False")

/-- Rust `{:?}` on `Rewrite` (derived `Debug`): the variant name. -/
def showRewrite : Rewrite → String
  | .AsIs => "AsIs"
  | .Instantiated => "Instantiated"
  | .HeadNormal => "HeadNormal"
  | .Simplified => "Simplified"
  | .Normalised => "Normalised"

/-- Rust `{:?}` on `ComputeMode` (derived `Debug`): the variant name. -/
def showComputeMode : ComputeMode → String
  | .DefaultCompute => "DefaultCompute"
  | .IgnoreAbstract => "IgnoreAbstract"
  | .UseShowInstance => "UseShowInstance"

/-- Rust `{:?}` on `UseForce` (derived `Debug`): the variant name. -/
def showUseForce : UseForce → String
  | .WithForce => "WithForce"
  | .WithoutForce => "WithoutForce"

/-- Rust `{:?}` on `Remove` (derived `Debug`): the variant name. -/
def showRemove : Remove → String
  | .Remove => "Remove"
  | .Keep => "Keep"

/-- Rust `{:?}` on `HighlightingLevel` (derived `Debug`): the variant name. -/
def showHighlightingLevel : HighlightingLevel → String
  | .None => "None"
  | .NonInteractive => "NonInteractive"
  | .Interactive => "Interactive"

/-- Rust `{:?}` on `HighlightingMethod` (derived `Debug`): the variant name. -/
def showHighlightingMethod : HighlightingMethod → String
  | .Direct => "Direct"
  | .Indirect => "Indirect"

/-- `impl Display for Pn` from `cmd.rs`:
`(Pn () {offset} {line} {column})` with `u32` fields in decimal. -/
def showPn (p : Pn) : String :=
  "(Pn () " ++ toString p.offset ++ " " ++ toString p.line ++ " "
    ++ toString p.column ++ ")"

/-- `impl Display for Range` from `cmd.rs`: the token `noRange`, or an
`intervalsToRange` application. -/
def showRange : Range → String
  | .NoRange => "noRange"
  | .Range file start «end» =>
    "(intervalsToRange (Just (mkAbsolute " ++ rustDebugStr file
      ++ ")) [Interval " ++ showPn start ++ " " ++ showPn «end» ++ "])"

/-- `impl Display for GoalInput` from `cmd.rs`: `{id:?} {range} {code:?}` —
the id in decimal, the range displayed, the code `Debug`-quoted, with no
surrounding parentheses. -/
def showGoalInput (g : GoalInput) : String :=
  toString g.id ++ " " ++ showRange g.range ++ " " ++ rustDebugStr g.code

/-- `impl Display for Cmd` from `cmd.rs`, arm by arm.  Note the
`TokenHighlighting` arm of the source ends its format string with a space and
no closing parenthesis; that is reproduced faithfully here. -/
def encodeCmd : Cmd → String
  | .Load path flags =>
    "( Cmd_load " ++ rustDebugStr path ++ " " ++ rustDebugStrList flags ++ " )"
  | .Compile backend path flags =>
    "( Cmd_compile " ++ rustDebugStr backend ++ " " ++ rustDebugStr path
      ++ " " ++ rustDebugStrList flags ++ " )"
  | .Constraints => "Cmd_constraints"
  | .Metas => "Cmd_metas"
  | .ShowModuleContentsToplevel rewrite search =>
    "( Cmd_show_module_contents_toplevel " ++ showRewrite rewrite ++ " "
      ++ rustDebugStr search ++ " )"
  | .SearchAboutToplevel rewrite search =>
    "( Cmd_search_about_toplevel " ++ showRewrite rewrite ++ " "
      ++ rustDebugStr search ++ " )"
  | .SolveAll rewrite => "( Cmd_solveAll " ++ showRewrite rewrite ++ " )"
  | .SolveOne rewrite input =>
    "( Cmd_solveOne " ++ showRewrite rewrite ++ " " ++ showGoalInput input
      ++ " )"
  | .AutoOne input => "( Cmd_autoOne " ++ showGoalInput input ++ " )"
  | .AutoAll => "Cmd_autoAll"
  | .InferToplevel rewrite code =>
    "( Cmd_infer_toplevel " ++ showRewrite rewrite ++ " " ++ rustDebugStr code
      ++ " )"
  | .ComputeToplevel compute_mode code =>
    "( Cmd_compute_toplevel " ++ showComputeMode compute_mode ++ " "
      ++ rustDebugStr code ++ " )"
  | .LoadHighlightingInfo path =>
    "( Cmd_load_highlighting_info " ++ rustDebugStr path ++ " )"
  | .TokenHighlighting path remove =>
    "( Cmd_tokenHighlighting " ++ rustDebugStr path ++ " "
      ++ showRemove remove ++ " "
  | .Highlight input => "( Cmd_highlight " ++ showGoalInput input ++ " )"
  | .ShowImplicitArgs show_ =>
    "( ShowImplicitArgs " ++ showHaskellBool show_ ++ " )"
  | .ToggleImplicitArgs => "ToggleImplicitArgs"
  | .Give force input =>
    "( Cmd_give " ++ showUseForce force ++ " " ++ showGoalInput input ++ " )"
  | .Refine input => "( Cmd_refine " ++ showGoalInput input ++ " )"
  | .Intro dunno input =>
    "( Cmd_intro " ++ showHaskellBool dunno ++ " " ++ showGoalInput input
      ++ " )"
  | .RefineOrIntro dunno input =>
    "( Cmd_refine_or_intro " ++ showHaskellBool dunno ++ " "
      ++ showGoalInput input ++ " )"
  | .Context rewrite input =>
    "( Cmd_context " ++ showRewrite rewrite ++ " " ++ showGoalInput input
      ++ " )"
  | .HelperFunction rewrite input =>
    "( Cmd_helper_function " ++ showRewrite rewrite ++ " "
      ++ showGoalInput input ++ " )"
  | .Infer rewrite input =>
    "( Cmd_infer " ++ showRewrite rewrite ++ " " ++ showGoalInput input
      ++ " )"
  | .GoalType rewrite input =>
    "( Cmd_goal_type " ++ showRewrite rewrite ++ " " ++ showGoalInput input
      ++ " )"
  | .ElaborateGive rewrite input =>
    "( Cmd_elaborate_give " ++ showRewrite rewrite ++ " "
      ++ showGoalInput input ++ " )"
  | .GoalTypeContext rewrite input =>
    "( Cmd_goal_type_context " ++ showRewrite rewrite ++ " "
      ++ showGoalInput input ++ " )"
  | .GoalTypeContextInfer rewrite input =>
    "( Cmd_goal_type_context_infer " ++ showRewrite rewrite ++ " "
      ++ showGoalInput input ++ " )"
  | .GoalTypeContextCheck rewrite input =>
    "( Cmd_goal_type_context_check " ++ showRewrite rewrite ++ " "
      ++ showGoalInput input ++ " )"
  | .ShowModuleContents rewrite input =>
    "( Cmd_show_module_contents " ++ showRewrite rewrite ++ " "
      ++ showGoalInput input ++ " )"
  | .MakeCase input => "( Cmd_make_case " ++ showGoalInput input ++ " )"
  | .Compute compute_mode input =>
    "( Cmd_compute " ++ showComputeMode compute_mode ++ " "
      ++ showGoalInput input ++ " )"
  | .WhyInScope input => "( Cmd_why_in_scope " ++ showGoalInput input ++ " )"
  | .WhyInScopeToplevel name =>
    "( Cmd_why_in_scope_toplevel " ++ rustDebugStr name ++ " )"
  | .ShowVersion => "Cmd_show_version"
  | .Abort => "Cmd_abort"

/-- IOTCM from `cmd.rs`: the envelope wrapping every outbound command. -/
structure IOTCM where
  level : HighlightingLevel
  file : String
  method : HighlightingMethod
  command : Cmd
  deriving DecidableEq, Repr

/-- `IOTCM::new` from `cmd.rs`. -/
def IOTCM.new (level : HighlightingLevel) (file : String)
    (method : HighlightingMethod) (command : Cmd) : IOTCM :=
  { level := level, file := file, method := method, command := command }

/-- `IOTCM::simple` from `cmd.rs`: default level and method. -/
def IOTCM.simple (file : String) (command : Cmd) : IOTCM :=
  IOTCM.new HighlightingLevel.default file HighlightingMethod.default command

/-- `impl Display for IOTCM` from `cmd.rs`:
`IOTCM {file:?} {level:?} {method:?} {command}`. -/
def encodeIOTCM (i : IOTCM) : String :=
  "IOTCM " ++ rustDebugStr i.file ++ " " ++ showHighlightingLevel i.level
    ++ " " ++ showHighlightingMethod i.method ++ " " ++ encodeCmd i.command

/-- `IOTCM::to_string` from `cmd.rs`: the displayed form plus a newline. -/
def IOTCM.to_string (i : IOTCM) : String := encodeIOTCM i ++ "\n"

/-! ## The response model (`resp.rs`) and its JSON wire form

Responses arrive as one JSON object per line; `serde` with `tag = "kind"`
gives internally-tagged decoding: dispatch on the string in the `kind` field,
read the variant's modeled fields by name (order-insensitive, unknown fields
ignored, missing modeled fields are an error), unknown `kind` values are an
error.  JSON is embedded as a value tree, with numbers as `Int`. -/

/-- A JSON value, as parsed from one line of the external process's output. -/
inductive Json
  | null
  | bool (b : Bool)
  | num (n : Int)
  | str (s : String)
  | arr (elems : List Json)
  | obj (fields : List (String × Json))
  deriving Repr

/-- Field lookup in a JSON object, by name. -/
def lookupField (fields : List (String × Json)) (key : String) : Option Json :=
  match fields with
  | [] => none
  | (k, v) :: rest => if k = key then some v else lookupField rest key

/-- A required field: missing modeled fields are a decode error. -/
def getField (fields : List (String × Json)) (key : String) :
    Except String Json :=
  match lookupField fields key with
  | some v => .ok v
  | none => .error ("missing field " ++ key)

/-- Decoding a Rust `bool` from JSON. -/
def decodeBool : Json → Except String Bool
  | .bool b => .ok b
  | _ => .error ("invalid type: expected a boolean")

/-- Decoding a Rust `String` from JSON. -/
def decodeString : Json → Except String String
  | .str s => .ok s
  | _ => .error ("invalid type: expected a string")

/-- Decoding a Rust `()` from JSON: `serde_json` maps unit to `null`. -/
def decodeUnit : Json → Except String Unit
  | .null => .ok ()
  | _ => .error ("invalid type: expected null")

/-- Decoding a Rust `u32` from JSON: the number must be an integer in
`[0, 2^32)`. -/
def decodeU32 : Json → Except String Nat
  | .num n =>
    if 0 ≤ n ∧ n < 4294967296 then .ok n.toNat
    else .error ("invalid value: out of range for u32")
  | _ => .error ("invalid type: expected an integer")

/-- Decoding a Rust `i32` from JSON: the number must be in
`[-2^31, 2^31)`. -/
def decodeI32 : Json → Except String Int
  | .num n =>
    if -2147483648 ≤ n ∧ n < 2147483648 then .ok n
    else .error ("invalid value: out of range for i32")
  | _ => .error ("invalid type: expected an integer")

/-- Decoding a Rust `Vec<u32>` element list. -/
def decodeU32List : List Json → Except String (List Nat)
  | [] => .ok []
  | j :: rest =>
    match decodeU32 j with
    | .error e => .error e
    | .ok n =>
      match decodeU32List rest with
      | .error e => .error e
      | .ok ns => .ok (n :: ns)

/-- Decoding a Rust `Vec<u32>` from JSON: must be an array. -/
def decodeU32Array : Json → Except String (List Nat)
  | .arr elems => decodeU32List elems
  | _ => .error ("invalid type: expected an array")

/-- Decoding a Rust `Vec<String>` element list. -/
def decodeStringList : List Json → Except String (List String)
  | [] => .ok []
  | j :: rest =>
    match decodeString j with
    | .error e => .error e
    | .ok s =>
      match decodeStringList rest with
      | .error e => .error e
      | .ok ss => .ok (s :: ss)

/-- Decoding a Rust `Vec<String>` from JSON: must be an array. -/
def decodeStringArray : Json → Except String (List String)
  | .arr elems => decodeStringList elems
  | _ => .error ("invalid type: expected an array")

/-- A required `String` field. -/
def getStr (fields : List (String × Json)) (key : String) :
    Except String String :=
  match getField fields key with
  | .error e => .error e
  | .ok j => decodeString j

/-- A required `bool` field. -/
def getBool (fields : List (String × Json)) (key : String) :
    Except String Bool :=
  match getField fields key with
  | .error e => .error e
  | .ok j => decodeBool j

/-- A required `u32` field. -/
def getU32 (fields : List (String × Json)) (key : String) :
    Except String Nat :=
  match getField fields key with
  | .error e => .error e
  | .ok j => decodeU32 j

/-- A required `i32` field. -/
def getI32 (fields : List (String × Json)) (key : String) :
    Except String Int :=
  match getField fields key with
  | .error e => .error e
  | .ok j => decodeI32 j

/-- Serializing a `u32` to JSON. -/
def serializeU32 (n : Nat) : Json := .num (n : Int)

/-- Status from `resp.rs`: `#[serde(rename_all = "camelCase")]`, so the wire
fields are `showImplicitArguments` and `checked`. -/
structure Status where
  show_implicit_arguments : Bool
  checked : Bool
  deriving DecidableEq, Repr

/-- `Status`'s derived Rust `Default`: both fields `false`. -/
def Status.default : Status :=
  { show_implicit_arguments := false, checked := false }

/-- Serde serialization of `Status`. -/
def serializeStatus (s : Status) : Json :=
  .obj [(("showImplicitArguments"), .bool s.show_implicit_arguments),
        (("checked"), .bool s.checked)]

/-- Serde deserialization of `Status`. -/
def deserializeStatus : Json → Except String Status
  | .obj fields =>
    match getBool fields ("showImplicitArguments") with
    | .error e => .error e
    | .ok sia =>
      match getBool fields ("checked") with
      | .error e => .error e
      | .ok chk => .ok { show_implicit_arguments := sia, checked := chk }
  | _ => .error ("invalid type: expected a map")

/-- MakeCase from `resp.rs`: which kind of definition a case split applies
to. -/
inductive MakeCase
  | Function
  | ExtendedLambda
  deriving DecidableEq, Repr

/-- Serde serialization of `MakeCase` (externally tagged unit variants: the
bare variant-name string). -/
def serializeMakeCase : MakeCase → Json
  | .Function => .str ("Function")
  | .ExtendedLambda => .str ("ExtendedLambda")

/-- Serde deserialization of `MakeCase`. -/
def deserializeMakeCase : Json → Except String MakeCase
  | .str s =>
    if s = "Function" then .ok .Function
    else if s = "ExtendedLambda" then .ok .ExtendedLambda
    else .error ("unknown variant " ++ s)
  | _ => .error ("invalid type: expected a string")

/-- DisplayInfo from `resp.rs`: the informational sub-union of responses.
Variants whose payload the source leaves `// TODO` carry no fields here, just
as they carry none in the source. -/
inductive DisplayInfo
  | CompilationOk (warnings : String) (errors : String)
  | Constraints
  | AllGoalsWarnings (goals : Unit) (warnings : String) (errors : String)
  | Time (time : String)
  | IntroNotFound
  | IntroConstructorUnknown
  | Auto (info : String)
  | ModuleContents
  | SearchAbout (search : String)
  | WhyInScope
  | NormalForm
  | InferredType
  | Context (interaction_point : InteractionPoint)
  | Version (version : String)
  | GoalSpecific (interaction_point : InteractionPoint)
  deriving DecidableEq, Repr

/-- Serde serialization of `DisplayInfo` (internally tagged by `kind`; Rust
`()` serializes to `null`). -/
def serializeDisplayInfo : DisplayInfo → Json
  | .CompilationOk warnings errors =>
    .obj [(("kind"), .str ("CompilationOk")), (("warnings"), .str warnings),
          (("errors"), .str errors)]
  | .Constraints => .obj [(("kind"), .str ("Constraints"))]
  | .AllGoalsWarnings _goals warnings errors =>
    .obj [(("kind"), .str ("AllGoalsWarnings")), (("goals"), .null),
          (("warnings"), .str warnings), (("errors"), .str errors)]
  | .Time time => .obj [(("kind"), .str ("Time")), (("time"), .str time)]
  | .IntroNotFound => .obj [(("kind"), .str ("IntroNotFound"))]
  | .IntroConstructorUnknown =>
    .obj [(("kind"), .str ("IntroConstructorUnknown"))]
  | .Auto info => .obj [(("kind"), .str ("Auto")), (("info"), .str info)]
  | .ModuleContents => .obj [(("kind"), .str ("ModuleContents"))]
  | .SearchAbout search =>
    .obj [(("kind"), .str ("SearchAbout")), (("search"), .str search)]
  | .WhyInScope => .obj [(("kind"), .str ("WhyInScope"))]
  | .NormalForm => .obj [(("kind"), .str ("NormalForm"))]
  | .InferredType => .obj [(("kind"), .str ("InferredType"))]
  | .Context ip =>
    .obj [(("kind"), .str ("Context")), (("interactionPoint"), serializeU32 ip)]
  | .Version version =>
    .obj [(("kind"), .str ("Version")), (("version"), .str version)]
  | .GoalSpecific ip =>
    .obj [(("kind"), .str ("GoalSpecific")),
          (("interactionPoint"), serializeU32 ip)]

/-- Serde deserialization of `DisplayInfo`: dispatch on `kind`, then read the
modeled fields; `// TODO` variants need only their tag. -/
def deserializeDisplayInfo : Json → Except String DisplayInfo
  | .obj fields =>
    match lookupField fields ("kind") with
    | none => .error ("missing field kind")
    | some (.str kind) =>
      if kind = "CompilationOk" then do
        let warnings ← getStr fields ("warnings")
        let errors ← getStr fields ("errors")
        .ok (.CompilationOk warnings errors)
      else if kind = "Constraints" then .ok .Constraints
      else if kind = "AllGoalsWarnings" then do
        let goals ← getField fields ("goals") >>= decodeUnit
        let warnings ← getStr fields ("warnings")
        let errors ← getStr fields ("errors")
        .ok (.AllGoalsWarnings goals warnings errors)
      else if kind = "Time" then do
        let time ← getStr fields ("time")
        .ok (.Time time)
      else if kind = "IntroNotFound" then .ok .IntroNotFound
      else if kind = "IntroConstructorUnknown" then .ok .IntroConstructorUnknown
      else if kind = "Auto" then do
        let info ← getStr fields ("info")
        .ok (.Auto info)
      else if kind = "ModuleContents" then .ok .ModuleContents
      else if kind = "SearchAbout" then do
        let search ← getStr fields ("search")
        .ok (.SearchAbout search)
      else if kind = "WhyInScope" then .ok .WhyInScope
      else if kind = "NormalForm" then .ok .NormalForm
      else if kind = "InferredType" then .ok .InferredType
      else if kind = "Context" then do
        let ip ← getU32 fields ("interactionPoint")
        .ok (.Context ip)
      else if kind = "Version" then do
        let version ← getStr fields ("version")
        .ok (.Version version)
      else if kind = "GoalSpecific" then do
        let ip ← getU32 fields ("interactionPoint")
        .ok (.GoalSpecific ip)
      else .error ("unknown variant " ++ kind)
    | some _ => .error ("invalid type: expected kind to be a string")
  | _ => .error ("invalid type: expected a map")

/-- Resp from `resp.rs`: the closed (intentionally partial) response union. -/
inductive Resp
  | HighlightingInfo (filepath : String) (direct : Bool)
  | Status (status : AgdaMode.Status)
  | JumpToError (filepath : String) (position : Int)
  | InteractionPoints (interaction_points : List InteractionPoint)
  | GiveAction (give_result : Bool) (interaction_point : InteractionPoint)
  | MakeCase (variant : AgdaMode.MakeCase)
      (interaction_point : InteractionPoint) (clauses : List String)
  | SolveAll
  | DisplayInfo (info : AgdaMode.DisplayInfo)
  | RunningInfo (debug_level : Int) (message : String)
  | ClearRunningInfo
  | ClearHighlighting
  | DoneAborting
  deriving DecidableEq, Repr

/-- Serde serialization of `Resp` (internally tagged by `kind`; renamed fields
use their wire names). -/
def serializeResp : Resp → Json
  | .HighlightingInfo filepath direct =>
    .obj [(("kind"), .str ("HighlightingInfo")), (("filepath"), .str filepath),
          (("direct"), .bool direct)]
  | .Status status =>
    .obj [(("kind"), .str ("Status")), (("status"), serializeStatus status)]
  | .JumpToError filepath position =>
    .obj [(("kind"), .str ("JumpToError")), (("filepath"), .str filepath),
          (("position"), .num position)]
  | .InteractionPoints ips =>
    .obj [(("kind"), .str ("InteractionPoints")),
          (("interactionPoints"), .arr (ips.map serializeU32))]
  | .GiveAction give_result ip =>
    .obj [(("kind"), .str ("GiveAction")), (("giveResult"), .bool give_result),
          (("interactionPoint"), serializeU32 ip)]
  | .MakeCase variant ip clauses =>
    .obj [(("kind"), .str ("MakeCase")),
          (("variant"), serializeMakeCase variant),
          (("interactionPoint"), serializeU32 ip),
          (("clauses"), .arr (clauses.map Json.str))]
  | .SolveAll => .obj [(("kind"), .str ("SolveAll"))]
  | .DisplayInfo info =>
    .obj [(("kind"), .str ("DisplayInfo")),
          (("info"), serializeDisplayInfo info)]
  | .RunningInfo debug_level message =>
    .obj [(("kind"), .str ("RunningInfo")), (("debugLevel"), .num debug_level),
          (("message"), .str message)]
  | .ClearRunningInfo => .obj [(("kind"), .str ("ClearRunningInfo"))]
  | .ClearHighlighting => .obj [(("kind"), .str ("ClearHighlighting"))]
  | .DoneAborting => .obj [(("kind"), .str ("DoneAborting"))]

/-- The `kind` discriminator values of the modeled `Resp` variants. -/
def respKinds : List String :=
  [("HighlightingInfo"), ("Status"), ("JumpToError"), ("InteractionPoints"),
   ("GiveAction"), ("MakeCase"), ("SolveAll"), ("DisplayInfo"),
   ("RunningInfo"), ("ClearRunningInfo"), ("ClearHighlighting"),
   ("DoneAborting")]

/-- The `kind`-dispatch of serde's internally-tagged deserialization of
`Resp`: given the discriminator string and the object's fields, read the
variant's modeled fields by wire name; a `kind` outside `respKinds` is a
decode error. -/
def deserializeRespWithKind (kind : String) (fields : List (String × Json)) :
    Except String Resp :=
  if kind = "HighlightingInfo" then do
    let filepath ← getStr fields ("filepath")
    let direct ← getBool fields ("direct")
    .ok (.HighlightingInfo filepath direct)
  else if kind = "Status" then do
    let status ← getField fields ("status") >>= deserializeStatus
    .ok (.Status status)
  else if kind = "JumpToError" then do
    let filepath ← getStr fields ("filepath")
    let position ← getI32 fields ("position")
    .ok (.JumpToError filepath position)
  else if kind = "InteractionPoints" then do
    let ips ← getField fields ("interactionPoints") >>= decodeU32Array
    .ok (.InteractionPoints ips)
  else if kind = "GiveAction" then do
    let give_result ← getBool fields ("giveResult")
    let ip ← getU32 fields ("interactionPoint")
    .ok (.GiveAction give_result ip)
  else if kind = "MakeCase" then do
    let variant ← getField fields ("variant") >>= deserializeMakeCase
    let ip ← getU32 fields ("interactionPoint")
    let clauses ← getField fields ("clauses") >>= decodeStringArray
    .ok (.MakeCase variant ip clauses)
  else if kind = "SolveAll" then .ok .SolveAll
  else if kind = "DisplayInfo" then do
    let info ← getField fields ("info") >>= deserializeDisplayInfo
    .ok (.DisplayInfo info)
  else if kind = "RunningInfo" then do
    let debug_level ← getI32 fields ("debugLevel")
    let message ← getStr fields ("message")
    .ok (.RunningInfo debug_level message)
  else if kind = "ClearRunningInfo" then .ok .ClearRunningInfo
  else if kind = "ClearHighlighting" then .ok .ClearHighlighting
  else if kind = "DoneAborting" then .ok .DoneAborting
  else .error ("unknown variant " ++ kind)

/-- Serde deserialization of `Resp`: an internally-tagged JSON object whose
`kind` string selects the variant via `deserializeRespWithKind`. -/
def deserializeResp : Json → Except String Resp
  | .obj fields =>
    match lookupField fields ("kind") with
    | none => .error ("missing field kind")
    | some (.str kind) => deserializeRespWithKind kind fields
    | some _ => .error ("invalid type: expected kind to be a string")
  | _ => .error ("invalid type: expected a map")

/-- The fully-modeled `Resp` variants named by the spec's round-trip
property: `Status`, `MakeCase`, `GiveAction`, `InteractionPoints`. -/
def fullyModeled : Resp → Bool
  | .Status _ => true
  | .MakeCase _ _ _ => true
  | .GiveAction _ _ => true
  | .InteractionPoints _ => true
  | _ => false

/-- Well-formedness of a `Resp` value as a Rust value: every
`InteractionPoint` field fits in a `u32`.  (In the Rust source this holds by
the type `u32`; the `Nat` embedding states it explicitly.) -/
def respWf : Resp → Bool
  | .InteractionPoints ips => ips.all (fun ip => ip < 4294967296)
  | .GiveAction _ ip => ip < 4294967296
  | .MakeCase _ ip _ => ip < 4294967296
  | _ => true

/-! ## The goal/reload cycle (`agda-tac/src/repl.rs`)

`repl.rs` is driven through `ReplState` (module `agda_mode::agda`), whose
source is not among the provided files; its operations `next_goals`,
`next_display_info`, `command` and `shutdown` are modelled from the spec.  The
conversation is modelled functionally: the pending responses of the external
process are a finite list, and each operation returns what it printed, the
commands it sent, and the rest of the stream; `none` models the stream ending
while a read loop is still waiting. -/

namespace Repl

/-- Modelled from the spec: `GoalInfo`, the inner payload of a goal-specific
display info.  It is referenced by `repl.rs`
(`GoalInfo::CurrentGoal { the_type, .. }`) and by the doc comments of
`cmd.rs` (`Cmd::goal_type` produces `CurrentGoal`, `Cmd::infer` produces
`InferredType`), but its defining module is missing from the provided
sources.  `CurrentGoal` carries the rendered goal type. -/
inductive GoalInfo
  | CurrentGoal (the_type : String)
  | InferredType (expr : String)
  deriving DecidableEq, Repr

/-- Modelled from the spec: the `DisplayInfo` union as `repl.rs` consumes it —
the variant set of `resp.rs`, except that `GoalSpecific` carries its decoded
`goal_info : GoalInfo` payload (the provided `resp.rs` leaves that field
`// TODO`, while `repl.rs` and the spec's end-to-end example pattern-match on
it). -/
inductive DisplayInfo
  | CompilationOk (warnings : String) (errors : String)
  | Constraints
  | AllGoalsWarnings (goals : Unit) (warnings : String) (errors : String)
  | Time (time : String)
  | IntroNotFound
  | IntroConstructorUnknown
  | Auto (info : String)
  | ModuleContents
  | SearchAbout (search : String)
  | WhyInScope
  | NormalForm
  | InferredType
  | Context (interaction_point : InteractionPoint)
  | Version (version : String)
  | GoalSpecific (interaction_point : InteractionPoint) (goal_info : GoalInfo)
  deriving DecidableEq, Repr

/-- The response union as the REPL layer consumes it: the variant set of
`resp.rs` with the REPL-side `DisplayInfo`. -/
inductive Resp
  | HighlightingInfo (filepath : String) (direct : Bool)
  | Status (status : AgdaMode.Status)
  | JumpToError (filepath : String) (position : Int)
  | InteractionPoints (interaction_points : List InteractionPoint)
  | GiveAction (give_result : Bool) (interaction_point : InteractionPoint)
  | MakeCase (variant : AgdaMode.MakeCase)
      (interaction_point : InteractionPoint) (clauses : List String)
  | SolveAll
  | DisplayInfo (info : Repl.DisplayInfo)
  | RunningInfo (debug_level : Int) (message : String)
  | ClearRunningInfo
  | ClearHighlighting
  | DoneAborting
  deriving DecidableEq, Repr

/-- Modelled from the spec: `ReplState::next_display_info` — reads responses,
discarding all non-`DisplayInfo` responses, until a `DisplayInfo` arrives or
the stream ends. -/
def next_display_info : List Repl.Resp →
    Option (Repl.DisplayInfo × List Repl.Resp)
  | [] => none
  | .DisplayInfo i :: rest => some (i, rest)
  | _ :: rest => next_display_info rest

/-- The inner loop of `list_goals` in `repl.rs`: call `next_display_info`
repeatedly, discarding every display info until one is a `GoalSpecific` whose
`goal_info` is a `CurrentGoal`, and return its rendered type.  Written as a
single scan of the stream; `awaitCurrentGoal_eq_loop` shows it computes
exactly the `next_display_info`-based loop of the source. -/
def awaitCurrentGoal : List Repl.Resp → Option (String × List Repl.Resp)
  | [] => none
  | .DisplayInfo (.GoalSpecific _ (.CurrentGoal t)) :: rest => some (t, rest)
  | _ :: rest => awaitCurrentGoal rest

/-- The `println!("?{:?}: {}", ii, ty)` line of `list_goals`. -/
def goalLine (ii : InteractionPoint) (ty : String) : String :=
  "?" ++ toString ii ++ ": " ++ ty

/-- `list_goals` from `repl.rs`: for each interaction point, in the order
given, send `Cmd::goal_type(GoalInput::simple(ii))`, then loop on display
infos until a `GoalSpecific`/`CurrentGoal` is observed, and print
`?{ii}: {type}`.  Returns the commands sent, the `(id, type)` pairs printed
(in order), and the rest of the stream; `none` models the stream ending while
the loop is still waiting. -/
def list_goals : List InteractionPoint → List Repl.Resp →
    Option (List Cmd × List (InteractionPoint × String) × List Repl.Resp)
  | [], stream => some ([], [], stream)
  | ii :: iis, stream =>
    match awaitCurrentGoal stream with
    | none => none
    | some (ty, stream1) =>
      match list_goals iis stream1 with
      | none => none
      | some (cmds, pairs, stream2) =>
        some (Cmd.goal_type (GoalInput.simple ii) :: cmds,
              (ii, ty) :: pairs, stream2)

/-- The observable effects of one REPL operation: the commands written to the
external process (in order), the lines printed on stdout and stderr, and
whether the session was shut down. -/
structure Effects where
  sent : List Cmd
  printed : List String
  err_printed : List String
  did_shutdown : Bool
  deriving DecidableEq, Repr

/-- `reload` from `repl.rs`.  The outcome of `ReplState::next_goals` is taken
as the `goals` argument (modelled from the spec: `next_goals` is missing from
the provided sources; it issues a reload and returns either the interaction
point id list or the external process's rendered error text).  On success the
code prints `Goals:`, prints `No goals.` when the list is empty, and runs
`list_goals`; on failure it prints `Errors:` and the error text verbatim on
stderr and never calls `list_goals`.  Either way it then runs `finish`, which
sends `Cmd::Abort` and shuts the session down. -/
def reload (goals : Except String (List InteractionPoint))
    (stream : List Repl.Resp) : Option (Effects × List Repl.Resp) :=
  match goals with
  | .ok iis =>
    match list_goals iis stream with
    | none => none
    | some (cmds, pairs, rest) =>
      some ({ sent := cmds ++ [Cmd.Abort],
              printed :=
                (("Goals:") :: (if iis.isEmpty then [("No goals.")] else []))
                  ++ pairs.map (fun p => goalLine p.1 p.2),
              err_printed := [],
              did_shutdown := true }, rest)
  | .error err_msg =>
    some ({ sent := [Cmd.Abort],
            printed := [],
            err_printed := [("Errors:"), err_msg],
            did_shutdown := true }, stream)

/-- `line` from `repl.rs`: the user's input line is received but — the body is
marked `// TODO` in the source — never inspected; every line runs `reload`
(which ends in `finish`: `Abort` plus shutdown) and returns `false`, so the
REPL loop never terminates from `line`. -/
def line (_input : String) (goals : Except String (List InteractionPoint))
    (stream : List Repl.Resp) : Option (Effects × List Repl.Resp × Bool) :=
  match reload goals stream with
  | none => none
  | some (eff, rest) => some (eff, rest, false)

end Repl

/-! ## Theorems -/

/-- Decoding the serialization of an in-range `u32` recovers it. -/
theorem decodeU32_serializeU32 (n : Nat) (h : n < 4294967296) :
    decodeU32 (serializeU32 n) = .ok n := by
  have h1 : (0 : Int) ≤ (n : Int) ∧ (n : Int) < 4294967296 := by
    constructor <;> omega
  simp only [serializeU32, decodeU32, if_pos h1]
  congr 1

/-- Unfolding lemma for `decodeU32List` on a cons cell. -/
theorem decodeU32List_cons (j : Json) (rest : List Json) :
    decodeU32List (j :: rest) =
      match decodeU32 j with
      | .error e => .error e
      | .ok n =>
        match decodeU32List rest with
        | .error e => .error e
        | .ok ns => .ok (n :: ns) := rfl

/-- Decoding the element-wise serialization of an in-range `u32` list
recovers it. -/
theorem decodeU32List_map (ips : List Nat) (h : ∀ ip ∈ ips, ip < 4294967296) :
    decodeU32List (ips.map serializeU32) = .ok ips := by
  induction ips with
  | nil => rfl
  | cons ip ips ih =>
    rw [List.map_cons, decodeU32List_cons,
      decodeU32_serializeU32 ip (h ip (by simp)),
      ih (fun x hx => h x (by simp [hx]))]

/-- Decoding the serialization of a `Vec<u32>` recovers it. -/
theorem decodeU32Array_map (ips : List Nat) (h : ∀ ip ∈ ips, ip < 4294967296) :
    decodeU32Array (Json.arr (ips.map serializeU32)) = .ok ips := by
  simp only [decodeU32Array, decodeU32List_map ips h]

/-- Unfolding lemma for `decodeStringList` on a cons cell. -/
theorem decodeStringList_cons (j : Json) (rest : List Json) :
    decodeStringList (j :: rest) =
      match decodeString j with
      | .error e => .error e
      | .ok s =>
        match decodeStringList rest with
        | .error e => .error e
        | .ok ss => .ok (s :: ss) := rfl

/-- Decoding the element-wise serialization of a string list recovers it. -/
theorem decodeStringList_map (xs : List String) :
    decodeStringList (xs.map Json.str) = .ok xs := by
  induction xs with
  | nil => rfl
  | cons x xs ih =>
    rw [List.map_cons, decodeStringList_cons, ih]
    rfl

/-- Decoding the serialization of a `Vec<String>` recovers it. -/
theorem decodeStringArray_map (xs : List String) :
    decodeStringArray (Json.arr (xs.map Json.str)) = .ok xs := by
  simp only [decodeStringArray, decodeStringList_map xs]

/-- Faithfulness of `Repl.awaitCurrentGoal` to the source's nested loops: it
computes exactly "call `next_display_info`, and unless the result is a
`GoalSpecific` with a `CurrentGoal`, loop again on the rest". -/
theorem awaitCurrentGoal_eq_loop (stream : List Repl.Resp) :
    Repl.awaitCurrentGoal stream =
      match Repl.next_display_info stream with
      | none => none
      | some (.GoalSpecific _ (.CurrentGoal t), rest) => some (t, rest)
      | some (_, rest) => Repl.awaitCurrentGoal rest := by
  induction stream with
  | nil => rfl
  | cons r rest ih =>
    cases r
    case DisplayInfo i =>
      cases i
      case GoalSpecific ip gi => cases gi <;> rfl
      all_goals rfl
    all_goals
      simpa [Repl.awaitCurrentGoal, Repl.next_display_info] using ih

/-- What `Repl.list_goals` sends and reports: one `goal_type` query per id, in
the order given, and one `(id, type)` pair per id, in the same order. -/
theorem list_goals_spec :
    ∀ (iis : List InteractionPoint) (stream : List Repl.Resp)
      (cmds : List Cmd) (pairs : List (InteractionPoint × String))
      (rest : List Repl.Resp),
      Repl.list_goals iis stream = some (cmds, pairs, rest) →
      cmds = iis.map (fun ii => Cmd.goal_type (GoalInput.simple ii)) ∧
        pairs.map Prod.fst = iis := by
  intro iis
  induction iis with
  | nil =>
    intro stream cmds pairs rest h
    simp only [Repl.list_goals, Option.some.injEq, Prod.mk.injEq] at h
    obtain ⟨h1, h2, _⟩ := h
    subst h1; subst h2
    simp
  | cons ii iis ih =>
    intro stream cmds pairs rest h
    simp only [Repl.list_goals] at h
    split at h
    · exact absurd h (by simp)
    · split at h
      · exact absurd h (by simp)
      · rename_i x1 ty stream1 haw x2 cmds1 pairs1 stream2 hlg
        clear x1 x2
        simp only [Option.some.injEq, Prod.mk.injEq] at h
        obtain ⟨h1, h2, _⟩ := h
        obtain ⟨ih1, ih2⟩ := ih stream1 cmds1 pairs1 stream2 hlg
        subst h1; subst h2
        simp [ih1, ih2]

/-- Claim C1, counterexample: encoding `Cmd::give(GoalInput::no_range(233,
"a"))` does not yield the golden string `( Cmd_give WithoutForce (233 noRange
"a") )` claimed by the spec — `GoalInput`'s `Display` impl writes
`{id:?} {range} {code:?}` with no parentheses around the triple. -/
theorem c1_give_golden_counterexample :
    encodeCmd (Cmd.give (GoalInput.no_range 233 ("a")))
      ≠ "( Cmd_give WithoutForce (233 noRange \"a\") )" := by
  decide

/-- Claim C1, amended: encoding the command built by `Cmd::give` applied to
`GoalInput::no_range(233, "a")` yields exactly the text
`( Cmd_give WithoutForce 233 noRange "a" )` — the goal input renders as its
id, range and quoted code juxtaposed (no parentheses around them), and the
force modifier defaults to `WithoutForce`. -/
theorem c1_give_encoding :
    encodeCmd (Cmd.give (GoalInput.no_range 233 ("a")))
      = "( Cmd_give WithoutForce 233 noRange \"a\" )" := by
  rfl

/-- Claim C4: decoding a JSON object carrying only the discriminator
`kind = "Constraints"` succeeds with the `Constraints` variant, and the same
leniency holds for the other not-fully-modeled payload variants —
`IntroNotFound`, `IntroConstructorUnknown`, `ModuleContents`, `WhyInScope`,
`NormalForm`, `InferredType` in `DisplayInfo`, and `SolveAll`,
`ClearHighlighting` in `Resp` — none of which requires any further field. -/
theorem c4_decoder_leniency :
    deserializeDisplayInfo (Json.obj [(("kind"), Json.str ("Constraints"))])
        = .ok DisplayInfo.Constraints ∧
      deserializeDisplayInfo
          (Json.obj [(("kind"), Json.str ("IntroNotFound"))])
        = .ok DisplayInfo.IntroNotFound ∧
      deserializeDisplayInfo
          (Json.obj [(("kind"), Json.str ("IntroConstructorUnknown"))])
        = .ok DisplayInfo.IntroConstructorUnknown ∧
      deserializeDisplayInfo
          (Json.obj [(("kind"), Json.str ("ModuleContents"))])
        = .ok DisplayInfo.ModuleContents ∧
      deserializeDisplayInfo (Json.obj [(("kind"), Json.str ("WhyInScope"))])
        = .ok DisplayInfo.WhyInScope ∧
      deserializeDisplayInfo (Json.obj [(("kind"), Json.str ("NormalForm"))])
        = .ok DisplayInfo.NormalForm ∧
      deserializeDisplayInfo
          (Json.obj [(("kind"), Json.str ("InferredType"))])
        = .ok DisplayInfo.InferredType ∧
      deserializeResp (Json.obj [(("kind"), Json.str ("SolveAll"))])
        = .ok Resp.SolveAll ∧
      deserializeResp (Json.obj [(("kind"), Json.str ("ClearHighlighting"))])
        = .ok Resp.ClearHighlighting :=
  ⟨rfl, rfl, rfl, rfl, rfl, rfl, rfl, rfl, rfl⟩

/-- Claim C6, failing input: the `TokenHighlighting` arm of `Cmd`'s `Display`
impl ends its format string with a space instead of `" )"`, so the encoded
command is not a closed parenthesized application: it opens with `( ` but ends
with a trailing space and no `)`.  This theorem evaluates the encoder at the
failing input, exhibiting the unclosed text. -/
theorem c6_token_highlighting_unclosed :
    encodeCmd (Cmd.TokenHighlighting ("tmp.agda") Remove.Remove)
      = "( Cmd_tokenHighlighting \"tmp.agda\" Remove " := by
  rfl

/-- Claim C7: when the reload succeeds with an empty interaction-point list,
`reload` prints `Goals:` and `No goals.`, and the only command it sends is the
`Abort` of `finish` — in particular zero `GoalType` queries are issued. -/
theorem c7_empty_goals (stream : List Repl.Resp) :
    Repl.reload (Except.ok []) stream
        = some ({ sent := [Cmd.Abort],
                  printed := [("Goals:"), ("No goals.")],
                  err_printed := [],
                  did_shutdown := true }, stream) ∧
      ∀ c ∈ [Cmd.Abort], ∀ rewrite input, c ≠ Cmd.GoalType rewrite input := by
  refine ⟨rfl, ?_⟩
  intro c hc rewrite input
  simp only [List.mem_singleton] at hc
  subst hc
  intro hcontr
  exact Cmd.noConfusion hcontr

/-- Claim C8: when the reload fails, `reload` prints `Errors:` followed by the
external process's error text verbatim on stderr, and the only command it
sends is the `Abort` of `finish` — `list_goals` is never called, so no
`GoalType` query is issued for any goal.  The `next_goals` outcome is the
spec-modelled input (its `ReplState` source is not among the provided
files). -/
theorem c8_reload_failure (err_msg : String) (stream : List Repl.Resp) :
    Repl.reload (Except.error err_msg) stream
        = some ({ sent := [Cmd.Abort],
                  printed := [],
                  err_printed := [("Errors:"), err_msg],
                  did_shutdown := true }, stream) ∧
      ∀ c ∈ [Cmd.Abort], ∀ rewrite input, c ≠ Cmd.GoalType rewrite input := by
  refine ⟨rfl, ?_⟩
  intro c hc rewrite input
  simp only [List.mem_singleton] at hc
  subst hc
  intro hcontr
  exact Cmd.noConfusion hcontr

/-- Claim C9, failing input: contrary to the claim that only the input
`"exit"` leads to `Abort` plus shutdown, the `line` function of `repl.rs`
(its body is a `// TODO` stub) ignores the input text entirely: after the
input `"reload"` (here with a successful empty reload) it sends `Abort`,
shuts the session down, and returns `false` — so the abort/shutdown happens
after every input line, and no input line makes `line` terminate the loop. -/
theorem c9_line_always_aborts :
    Repl.line ("reload") (Except.ok []) []
      = some ({ sent := [Cmd.Abort],
                printed := [("Goals:"), ("No goals.")],
                err_printed := [],
                did_shutdown := true }, [], false) := by
  rfl

/-- Claim C2: for every non-empty interaction-point list returned by a
successful reload, `list_goals` sends exactly one `GoalType` query per id
(`Cmd::goal_type(GoalInput::simple(ii))`), in the order the ids were given —
never re-sorted — reading and discarding display-info responses for each id
until a `GoalSpecific` with an inner `CurrentGoal` is observed
(`awaitCurrentGoal`, shown equal to the source's `next_display_info` loop by
`awaitCurrentGoal_eq_loop`), and reports the `(id, type)` pairs in that same
order. -/
theorem c2_goal_listing_order (iis : List InteractionPoint)
    (stream : List Repl.Resp) (cmds : List Cmd)
    (pairs : List (InteractionPoint × String)) (rest : List Repl.Resp)
    (hne : iis ≠ [])
    (h : Repl.list_goals iis stream = some (cmds, pairs, rest)) :
    cmds = iis.map (fun ii => Cmd.goal_type (GoalInput.simple ii)) ∧
      pairs.map Prod.fst = iis :=
  list_goals_spec iis stream cmds pairs rest h

/-- Witness for C2 at the spec's example ids `[5, 9]`, with status and
version chatter interleaved in the stream. -/
theorem c2_goal_listing_order_witness :
    ([5, 9] : List InteractionPoint) ≠ [] ∧
      Repl.list_goals [5, 9]
          [.RunningInfo 1 ("chk"), .DisplayInfo (.Version ("2.6.1")),
           .DisplayInfo (.GoalSpecific 5 (.CurrentGoal ("Nat"))),
           .Status Status.default,
           .DisplayInfo (.GoalSpecific 9 (.CurrentGoal ("Bool")))]
        = some ([Cmd.goal_type (GoalInput.simple 5),
                 Cmd.goal_type (GoalInput.simple 9)],
                [(5, ("Nat")), (9, ("Bool"))], []) ∧
      ([Cmd.goal_type (GoalInput.simple 5), Cmd.goal_type (GoalInput.simple 9)]
          = ([5, 9] : List InteractionPoint).map
              (fun ii => Cmd.goal_type (GoalInput.simple ii)) ∧
        ([(5, ("Nat")), (9, ("Bool"))] :
            List (InteractionPoint × String)).map Prod.fst = [5, 9]) :=
  ⟨by decide, rfl,
    c2_goal_listing_order [5, 9]
      [.RunningInfo 1 ("chk"), .DisplayInfo (.Version ("2.6.1")),
       .DisplayInfo (.GoalSpecific 5 (.CurrentGoal ("Nat"))),
       .Status Status.default,
       .DisplayInfo (.GoalSpecific 9 (.CurrentGoal ("Bool")))]
      _ _ _ (by decide) rfl⟩

/-- Claim C10: every command `list_goals` sends is a `GoalType` query built
from the interaction point id alone — its goal input is
`GoalInput::simple(ii)`, i.e. it carries `Range::NoRange` and an empty code
string, for some id in the given list. -/
theorem c10_goal_query_shape (iis : List InteractionPoint)
    (stream : List Repl.Resp) (cmds : List Cmd)
    (pairs : List (InteractionPoint × String)) (rest : List Repl.Resp)
    (h : Repl.list_goals iis stream = some (cmds, pairs, rest)) :
    ∀ c ∈ cmds, ∃ ii ∈ iis,
      c = Cmd.GoalType Rewrite.default
            { id := ii, range := Range.NoRange, code := ("") } := by
  intro c hc
  obtain ⟨hcmds, _⟩ := list_goals_spec iis stream cmds pairs rest h
  subst hcmds
  simp only [List.mem_map] at hc
  obtain ⟨ii, hii, rfl⟩ := hc
  exact ⟨ii, hii, rfl⟩

/-- Witness for C10 at the single goal id `7`. -/
theorem c10_goal_query_shape_witness :
    Repl.list_goals [7] [.DisplayInfo (.GoalSpecific 7 (.CurrentGoal ("T")))]
        = some ([Cmd.goal_type (GoalInput.simple 7)], [(7, ("T"))], []) ∧
      ∀ c ∈ [Cmd.goal_type (GoalInput.simple 7)],
        ∃ ii ∈ ([7] : List InteractionPoint),
          c = Cmd.GoalType Rewrite.default
                { id := ii, range := Range.NoRange, code := ("") } :=
  ⟨rfl,
    c10_goal_query_shape [7]
      [.DisplayInfo (.GoalSpecific 7 (.CurrentGoal ("T")))] _ _ _ rfl⟩

/-- Bind of a successful `Except` computation reduces to the
continuation. -/
theorem except_ok_bind {ε α β : Type} (a : α) (f : α → Except ε β) :
    (Except.ok a >>= f : Except ε β) = f a := rfl

/-- Claim C3: decoding a response line whose JSON object carries a `kind`
discriminator outside the modeled variant set fails with a decode error — it
never silently maps to an existing variant or a default value. -/
theorem c3_unknown_kind_fails (kind : String)
    (fields : List (String × Json))
    (hk : lookupField fields ("kind") = some (Json.str kind))
    (hu : kind ∉ respKinds) :
    deserializeResp (Json.obj fields)
      = .error ("unknown variant " ++ kind) := by
  have hobj : deserializeResp (Json.obj fields)
      = deserializeRespWithKind kind fields := by
    simp only [deserializeResp]
    rw [hk]
  rw [hobj]
  simp only [respKinds, List.mem_cons, List.not_mem_nil, or_false,
    not_or] at hu
  obtain ⟨h1, h2, h3, h4, h5, h6, h7, h8, h9, h10, h11, h12⟩ := hu
  unfold deserializeRespWithKind
  rw [if_neg h1, if_neg h2, if_neg h3, if_neg h4, if_neg h5, if_neg h6,
    if_neg h7, if_neg h8, if_neg h9, if_neg h10, if_neg h11, if_neg h12]

/-- Witness for C3 at the unknown discriminator `"Frobnicate"`. -/
theorem c3_unknown_kind_fails_witness :
    lookupField [(("kind"), Json.str ("Frobnicate"))] ("kind")
        = some (Json.str ("Frobnicate")) ∧
      ("Frobnicate") ∉ respKinds ∧
      deserializeResp (Json.obj [(("kind"), Json.str ("Frobnicate"))])
        = .error ("unknown variant Frobnicate") :=
  ⟨rfl, by decide, c3_unknown_kind_fails ("Frobnicate") _ rfl (by decide)⟩

/-- Claim C5: on the fully-modeled response variants `Status`, `MakeCase`,
`GiveAction` and `InteractionPoints`, decoding the serialized JSON wire form
recovers the original value (`decode ∘ encode = id`).  `respWf` records the
`u32` range of interaction-point ids, implicit in the Rust types. -/
theorem c5_roundtrip (r : Resp) (hm : fullyModeled r = true)
    (hw : respWf r = true) :
    deserializeResp (serializeResp r) = .ok r := by
  cases r
  case Status s => rfl
  case GiveAction b ip =>
    have hip : ip < 4294967296 := by
      simpa [respWf] using hw
    simp [serializeResp, deserializeResp, deserializeRespWithKind,
      lookupField, getBool, getU32, getField, decodeBool, except_ok_bind,
      decodeU32_serializeU32 ip hip]
  case MakeCase v ip cs =>
    have hip : ip < 4294967296 := by
      simpa [respWf] using hw
    cases v <;>
      simp [serializeResp, serializeMakeCase, deserializeResp,
        deserializeRespWithKind, deserializeMakeCase, lookupField, getU32,
        getField, decodeStringArray, decodeStringList_map, except_ok_bind,
        decodeU32_serializeU32 ip hip]
  case InteractionPoints ips =>
    have hips : ∀ x ∈ ips, x < 4294967296 := by
      simp only [respWf, List.all_eq_true, decide_eq_true_eq] at hw
      exact hw
    simp [serializeResp, deserializeResp, deserializeRespWithKind,
      lookupField, getField, decodeU32Array, except_ok_bind,
      decodeU32List_map ips hips]
  all_goals simp [fullyModeled] at hm

/-- Witness for C5 at the interaction-point list `[5, 9]`. -/
theorem c5_roundtrip_witness :
    fullyModeled (Resp.InteractionPoints [5, 9]) = true ∧
      respWf (Resp.InteractionPoints [5, 9]) = true ∧
      deserializeResp (serializeResp (Resp.InteractionPoints [5, 9]))
        = .ok (Resp.InteractionPoints [5, 9]) :=
  ⟨rfl, by decide,
    c5_roundtrip (Resp.InteractionPoints [5, 9]) rfl (by decide)⟩

end AgdaMode
